import Mathlib

/-!
# Touchégg: `LibinputGestureGatherer`

A shallow embedding of `src/gesture-gatherer/libinput-gesture-gatherer.cpp`.

The C++ member functions become functions on an explicit `State`: the two
handles the object owns, the state of the libinput context they point to (the
data readable on its descriptor and its queue of events), and the `trace` of
the calls the code has made into libudev, libinput, the kernel and the
controller delegate, in the order they returned.  A function that can `throw`
returns a `Result`, which keeps the state reached when the exception left it.
-/

namespace Touchegg

/-! ## Data model -/

/-- A C pointer, as an address; `nullptr` is address `0`. -/
abbrev Ptr := Nat

/-- The null pointer. -/
abbrev nullptr : Ptr := 0

/-- The discriminant `enum libinput_event_type` of `<libinput.h>`, as its integer value. -/
abbrev libinput_event_type := Nat

abbrev LIBINPUT_EVENT_GESTURE_SWIPE_BEGIN : libinput_event_type := 800
abbrev LIBINPUT_EVENT_GESTURE_SWIPE_UPDATE : libinput_event_type := 801
abbrev LIBINPUT_EVENT_GESTURE_SWIPE_END : libinput_event_type := 802
abbrev LIBINPUT_EVENT_GESTURE_PINCH_BEGIN : libinput_event_type := 803
abbrev LIBINPUT_EVENT_GESTURE_PINCH_UPDATE : libinput_event_type := 804
abbrev LIBINPUT_EVENT_GESTURE_PINCH_END : libinput_event_type := 805

/-- The `POLLIN` flag of `<poll.h>`. -/
abbrev POLLIN : Int := 1

/-- A `struct libinput_event`: its discriminant, and `id`, which stands for the
rest of the record (two events with the same type are told apart by it). -/
structure libinput_event where
  type : libinput_event_type
  id : Nat
deriving DecidableEq, Repr

/-- Modelled from the spec: the class `LibinputGesture` (gesture/libinput-gesture.h)
is missing from the sources; the gesture that `LibinputGesture(event)` builds is
represented by the event it was built from. -/
structure LibinputGesture where
  event : libinput_event
deriving DecidableEq, Repr

/-- One call out of this translation unit, with its arguments and, where the
code reads it, the value it returned.  `libinput_event_destroy` is the
libinput operation that gives an event back to the library. -/
inductive Call where
  | udev_new (ret : Ptr)
  | libinput_udev_create_context (udev : Ptr) (ret : Ptr)
  | libinput_udev_assign_seat (li : Ptr) (seat : String) (ret : Int)
  | libinput_unref (li : Ptr)
  | udev_unref (udev : Ptr)
  | libinput_get_fd (li : Ptr) (ret : Int)
  | poll (fd : Int) (events : Int) (timeout : Int) (ret : Int)
  | libinput_dispatch (li : Ptr)
  | libinput_get_event (li : Ptr) (ret : Option libinput_event)
  | libinput_event_get_type (event : libinput_event) (ret : libinput_event_type)
  | libinput_event_destroy (event : libinput_event)
  | onGestureBegin (gesture : LibinputGesture)
  | sys_open (path : String) (flags : Int) (ret : Int)
  | sys_close (fd : Int)
deriving DecidableEq, Repr

/-- The object and the world it acts on.  `udevContext` and `libinputContext`
are the members of `LibinputGestureGatherer`; `fdData` is what is readable on
the libinput descriptor and not yet read by `libinput_dispatch`; `queue` is
libinput's queue of events, oldest first; `trace` is the calls made so far. -/
structure State where
  udevContext : Ptr
  libinputContext : Ptr
  fdData : List libinput_event
  queue : List libinput_event
  trace : List Call
deriving DecidableEq, Repr

/-- How a call of a member function ends: it returns `value`, it throws a
`std::runtime_error` with message `msg`, or it never returns (`blocked`: the
thread stays in `poll`, which was given no timeout). -/
inductive Result (α : Type) where
  | ok (value : α) (s : State)
  | throw (msg : String) (s : State)
  | blocked (s : State)
deriving DecidableEq, Repr

/-- Records a call at the end of the trace. -/
def State.call (s : State) (c : Call) : State :=
  { s with trace := s.trace ++ [c] }

/-- What one `poll` call does: the value it returns, and the events that became
readable on the descriptor while it waited. -/
structure PollOutcome where
  ret : Int
  arrived : List libinput_event
deriving DecidableEq, Repr

/-! ## The library operations the loop uses -/

/-- The library call `libinput_dispatch`: reads what is readable on the
descriptor and appends it to the queue. -/
def libinput_dispatch (s : State) : State :=
  { s with queue := s.queue ++ s.fdData, fdData := [],
           trace := s.trace ++ [Call.libinput_dispatch s.libinputContext] }

/-- The library call `libinput_get_event`: takes the oldest event off the
queue; `none` is the null pointer it returns on an empty queue. -/
def libinput_get_event (s : State) : Option libinput_event × State :=
  match s.queue with
  | [] => (none, s.call (Call.libinput_get_event s.libinputContext none))
  | e :: q =>
    (some e, { s with queue := q,
                      trace := s.trace ++ [Call.libinput_get_event s.libinputContext (some e)] })

/-! ## `LibinputGestureGatherer` -/

/-- The constructor body (lines 39-57).  `udev_new_ret`, `create_context_ret`
and `assign_seat_ret` are what `udev_new`, `libinput_udev_create_context` and
`libinput_udev_assign_seat` return when called.  The base-class initialiser,
which stores the configuration and the delegate, makes none of the calls of
the trace and is left out.  When the body throws, nothing else of this class
runs: C++ does not run the destructor of an object whose constructor threw,
and both members are raw pointers. -/
def LibinputGestureGatherer (udev_new_ret create_context_ret : Ptr) (assign_seat_ret : Int)
    (s : State) : Result Unit :=
  let s1 := { s with udevContext := udev_new_ret,
                     trace := s.trace ++ [Call.udev_new udev_new_ret] }
  if s1.udevContext = nullptr then
    Result.throw "Error initialising Touchégg: udev" s1
  else
    let s2 := { s1 with libinputContext := create_context_ret,
                        trace := s1.trace ++
                          [Call.libinput_udev_create_context s1.udevContext create_context_ret] }
    if s2.libinputContext = nullptr then
      Result.throw "Error initialising Touchégg: libinput" s2
    else
      let seat := assign_seat_ret
      let s3 := s2.call (Call.libinput_udev_assign_seat s2.libinputContext "seat0" seat)
      if seat ≠ 0 then
        Result.throw "Error initialising Touchégg: libinput seat" s3
      else
        Result.ok () s3

/-- The destructor body (lines 59-67). -/
def destructor (s : State) : State :=
  let s1 := if s.libinputContext ≠ nullptr then s.call (Call.libinput_unref s.libinputContext)
            else s
  if s1.udevContext ≠ nullptr then s1.call (Call.udev_unref s1.udevContext) else s1

/-- The member function `handleEvent` (lines 95-114). -/
def handleEvent (event : libinput_event) (s : State) : Result Unit :=
  let eventType := event.type
  let s1 := s.call (Call.libinput_event_get_type event eventType)
  if eventType = LIBINPUT_EVENT_GESTURE_SWIPE_BEGIN then
    let gesture := LibinputGesture.mk event
    Result.ok () (s1.call (Call.onGestureBegin gesture))
  else
    Result.ok () s1

/-- The inner `do ... while (hasEvents)` loop of `run` (lines 82-91): one drain cycle. -/
def drainLoop (s : State) : Result Unit :=
  match h : libinput_get_event (libinput_dispatch s) with
  | (some event, s2) =>
    match h2 : handleEvent event s2 with
    | Result.ok _ s3 => drainLoop s3
    | Result.throw msg s3 => Result.throw msg s3
    | Result.blocked s3 => Result.blocked s3
  | (none, s2) => Result.ok () s2
termination_by s.fdData.length + s.queue.length
decreasing_by
  have h3 : s3.fdData = s2.fdData ∧ s3.queue = s2.queue := by
    unfold handleEvent at h2
    simp only [State.call] at h2
    split at h2 <;> (injection h2 with _ h2; subst h2; exact ⟨rfl, rfl⟩)
  rw [h3.1, h3.2]
  unfold libinput_get_event libinput_dispatch at h
  simp only at h
  split at h
  · simp [State.call] at h
  · rename_i e q hq
    simp only [Prod.mk.injEq, Option.some.injEq] at h
    obtain ⟨_, h4⟩ := h
    subst h4
    have := congrArg List.length hq
    simp at this
    simp
    omega

/-- The `while (poll(...) >= 0)` loop of `run` (lines 80-92), over the outcomes
of the `poll` calls to come; when they run out, the thread stays blocked. -/
def pollLoop (fd : Int) : List PollOutcome → State → Result Unit
  | [], s => Result.blocked s
  | p :: rest, s =>
    let s1 := { s with fdData := s.fdData ++ p.arrived,
                       trace := s.trace ++ [Call.poll fd POLLIN (-1) p.ret] }
    if p.ret ≥ 0 then
      match drainLoop s1 with
      | Result.ok _ s2 => pollLoop fd rest s2
      | Result.throw msg s2 => Result.throw msg s2
      | Result.blocked s2 => Result.blocked s2
    else
      Result.ok () s1

/-- The member function `run` (lines 69-93); `get_fd_ret` is what `libinput_get_fd` returns. -/
def run (get_fd_ret : Int) (polls : List PollOutcome) (s : State) : Result Unit :=
  let fd := get_fd_ret
  let s1 := s.call (Call.libinput_get_fd s.libinputContext fd)
  if fd = -1 then
    Result.throw "Error initialising Touchégg: libinput_get_fd" s1
  else
    pollLoop fd polls s1

/-- The message of the error `openRestricted` throws. -/
def openRestrictedError : String :=
  "Error initialising Touchégg: libinput open.\n" ++
  "Please execute the following command:\n" ++
  "$ sudo usermod -a -G input $USER\n" ++
  "And reboot to solve this issue"

/-- The static member function `openRestricted` (lines 116-127); `sys_open` is
the `open` system call. -/
def openRestricted (sys_open : String → Int → Int) (path : String) (flags : Int)
    (s : State) : Result Int :=
  let fd := sys_open path flags
  let s1 := s.call (Call.sys_open path flags fd)
  if fd < 0 then
    Result.throw openRestrictedError s1
  else
    Result.ok fd s1

/-- The static member function `closeRestricted` (lines 129-131). -/
def closeRestricted (fd : Int) (s : State) : State :=
  s.call (Call.sys_close fd)

/-! ## Reading a trace -/

/-- The gestures passed to the delegate's `onGestureBegin`, in call order. -/
def delegateCalls : List Call → List LibinputGesture
  | [] => []
  | Call.onGestureBegin g :: t => g :: delegateCalls t
  | _ :: t => delegateCalls t

/-- The events that `libinput_get_event` returned, in call order. -/
def retrieved : List Call → List libinput_event
  | [] => []
  | Call.libinput_get_event _ (some e) :: t => e :: retrieved t
  | _ :: t => retrieved t

/-- The events given back to libinput with `libinput_event_destroy`, in call order. -/
def released : List Call → List libinput_event
  | [] => []
  | Call.libinput_event_destroy e :: t => e :: released t
  | _ :: t => released t

/-- The number of `poll` calls. -/
def pollCalls : List Call → Nat
  | [] => 0
  | Call.poll _ _ _ _ :: t => pollCalls t + 1
  | _ :: t => pollCalls t

/-- The number of completed drain cycles: a cycle ends with the one
`libinput_get_event` call that returns the null pointer. -/
def drainCycles : List Call → Nat
  | [] => 0
  | Call.libinput_get_event _ none :: t => drainCycles t + 1
  | _ :: t => drainCycles t

/-- The handles given to `libinput_unref` or `udev_unref`, in call order. -/
def unreffed : List Call → List Ptr
  | [] => []
  | Call.libinput_unref li :: t => li :: unreffed t
  | Call.udev_unref udev :: t => udev :: unreffed t
  | _ :: t => unreffed t

/-- The calls of one iteration of the drain loop that retrieves `e`. -/
def iterationCalls (li : Ptr) (e : libinput_event) : List Call :=
  [Call.libinput_dispatch li, Call.libinput_get_event li (some e),
   Call.libinput_event_get_type e e.type] ++
  (if e.type = LIBINPUT_EVENT_GESTURE_SWIPE_BEGIN
   then [Call.onGestureBegin (LibinputGesture.mk e)] else [])

/-- The calls of one drain cycle over the pending events `es`. -/
def drainCalls (li : Ptr) : List libinput_event → List Call
  | [] => [Call.libinput_dispatch li, Call.libinput_get_event li none]
  | e :: es => iterationCalls li e ++ drainCalls li es

/-- The calls of the successful waits `polls`, each followed by its drain
cycle; `pending` is what is queued or readable before the first of them. -/
def cyclesCalls (fd : Int) (li : Ptr) : List libinput_event → List PollOutcome → List Call
  | _, [] => []
  | pending, p :: rest =>
    Call.poll fd POLLIN (-1) p.ret ::
      (drainCalls li (pending ++ p.arrived) ++ cyclesCalls fd li [] rest)

/-- The release calls of one run of the destructor on `s`. -/
def releaseCalls (s : State) : List Call :=
  (if s.libinputContext ≠ nullptr then [Call.libinput_unref s.libinputContext] else []) ++
  (if s.udevContext ≠ nullptr then [Call.udev_unref s.udevContext] else [])

/-! ## Lemmas -/

theorem handleEvent_eq (event : libinput_event) (s : State) :
    handleEvent event s = Result.ok ()
      { s with trace := s.trace ++ (Call.libinput_event_get_type event event.type ::
          if event.type = LIBINPUT_EVENT_GESTURE_SWIPE_BEGIN
          then [Call.onGestureBegin (LibinputGesture.mk event)] else []) } := by
  unfold handleEvent
  by_cases h : event.type = LIBINPUT_EVENT_GESTURE_SWIPE_BEGIN <;> simp [h, State.call]

theorem get_event_dispatch_nil (s : State) (h : s.queue ++ s.fdData = []) :
    libinput_get_event (libinput_dispatch s) =
      (none, { s with queue := [], fdData := [],
                      trace := s.trace ++ drainCalls s.libinputContext [] }) := by
  simp [libinput_get_event, libinput_dispatch, State.call, h, drainCalls]

theorem get_event_dispatch_cons (s : State) (e : libinput_event) (es : List libinput_event)
    (h : s.queue ++ s.fdData = e :: es) :
    libinput_get_event (libinput_dispatch s) =
      (some e, { s with queue := es, fdData := [],
                        trace := s.trace ++ [Call.libinput_dispatch s.libinputContext,
                          Call.libinput_get_event s.libinputContext (some e)] }) := by
  simp [libinput_get_event, libinput_dispatch, h]

theorem drainLoop_nil (s : State) (h : s.queue ++ s.fdData = []) :
    drainLoop s = Result.ok ()
      { s with queue := [], fdData := [],
               trace := s.trace ++ drainCalls s.libinputContext [] } := by
  rw [drainLoop]
  split
  · rename_i event s2 heq
    rw [get_event_dispatch_nil s h] at heq
    simp at heq
  · rename_i s2 heq
    rw [get_event_dispatch_nil s h] at heq
    simp only [Prod.mk.injEq, true_and] at heq
    rw [heq]

theorem drainLoop_cons (s : State) (e : libinput_event) (es : List libinput_event)
    (h : s.queue ++ s.fdData = e :: es) :
    drainLoop s = drainLoop
      { s with queue := es, fdData := [],
               trace := s.trace ++ iterationCalls s.libinputContext e } := by
  rw [drainLoop]
  split
  · rename_i event s2 heq
    rw [get_event_dispatch_cons s e es h] at heq
    simp only [Prod.mk.injEq, Option.some.injEq] at heq
    obtain ⟨he, hs⟩ := heq
    subst he hs
    split
    · rename_i v s3 h2
      rw [handleEvent_eq] at h2
      injection h2 with _ h3
      subst h3
      simp [iterationCalls]
    · rename_i msg s3 h2
      rw [handleEvent_eq] at h2
      simp at h2
    · rename_i s3 h2
      rw [handleEvent_eq] at h2
      simp at h2
  · rename_i s2 heq
    rw [get_event_dispatch_cons s e es h] at heq
    simp at heq

/-- One drain cycle returns, with both the queue and the descriptor emptied and
the calls of `drainCalls` added to the trace. -/
theorem drainLoop_eq (s : State) :
    drainLoop s = Result.ok ()
      { s with queue := [], fdData := [],
               trace := s.trace ++ drainCalls s.libinputContext (s.queue ++ s.fdData) } := by
  generalize hp : s.queue ++ s.fdData = pending
  induction pending generalizing s with
  | nil => exact drainLoop_nil s hp
  | cons e es ih =>
    rw [drainLoop_cons s e es hp, ih _ (by simp)]
    simp [drainCalls]

theorem delegateCalls_append (a b : List Call) :
    delegateCalls (a ++ b) = delegateCalls a ++ delegateCalls b := by
  induction a with
  | nil => rfl
  | cons c a ih => cases c <;> simp [delegateCalls, ih]

theorem retrieved_append (a b : List Call) :
    retrieved (a ++ b) = retrieved a ++ retrieved b := by
  induction a with
  | nil => rfl
  | cons c a ih =>
    cases c with
    | libinput_get_event li r => cases r <;> simp [retrieved, ih]
    | _ => simp [retrieved, ih]

theorem released_append (a b : List Call) :
    released (a ++ b) = released a ++ released b := by
  induction a with
  | nil => rfl
  | cons c a ih => cases c <;> simp [released, ih]

theorem pollCalls_append (a b : List Call) :
    pollCalls (a ++ b) = pollCalls a + pollCalls b := by
  induction a with
  | nil => simp [pollCalls]
  | cons c a ih => cases c <;> simp [pollCalls, ih]; omega

theorem drainCycles_append (a b : List Call) :
    drainCycles (a ++ b) = drainCycles a + drainCycles b := by
  induction a with
  | nil => simp [drainCycles]
  | cons c a ih =>
    cases c with
    | libinput_get_event li r => cases r <;> simp [drainCycles, ih]; omega
    | _ => simp [drainCycles, ih]

theorem delegateCalls_drainCalls (li : Ptr) (es : List libinput_event) :
    delegateCalls (drainCalls li es) =
      (es.filter (fun e => decide (e.type = LIBINPUT_EVENT_GESTURE_SWIPE_BEGIN))).map
        LibinputGesture.mk := by
  induction es with
  | nil => rfl
  | cons e es ih =>
    by_cases h : e.type = LIBINPUT_EVENT_GESTURE_SWIPE_BEGIN <;>
      simp [drainCalls, iterationCalls, delegateCalls, delegateCalls_append, ih, h]

theorem retrieved_drainCalls (li : Ptr) (es : List libinput_event) :
    retrieved (drainCalls li es) = es := by
  induction es with
  | nil => rfl
  | cons e es ih =>
    by_cases h : e.type = LIBINPUT_EVENT_GESTURE_SWIPE_BEGIN <;>
      simp [drainCalls, iterationCalls, retrieved, retrieved_append, ih, h]

theorem released_drainCalls (li : Ptr) (es : List libinput_event) :
    released (drainCalls li es) = [] := by
  induction es with
  | nil => rfl
  | cons e es ih =>
    by_cases h : e.type = LIBINPUT_EVENT_GESTURE_SWIPE_BEGIN <;>
      simp [drainCalls, iterationCalls, released, released_append, ih, h]

theorem pollCalls_drainCalls (li : Ptr) (es : List libinput_event) :
    pollCalls (drainCalls li es) = 0 := by
  induction es with
  | nil => rfl
  | cons e es ih =>
    by_cases h : e.type = LIBINPUT_EVENT_GESTURE_SWIPE_BEGIN <;>
      simp [drainCalls, iterationCalls, pollCalls, pollCalls_append, ih, h]

theorem drainCycles_drainCalls (li : Ptr) (es : List libinput_event) :
    drainCycles (drainCalls li es) = 1 := by
  induction es with
  | nil => rfl
  | cons e es ih =>
    by_cases h : e.type = LIBINPUT_EVENT_GESTURE_SWIPE_BEGIN <;>
      simp [drainCalls, iterationCalls, drainCycles, drainCycles_append, ih, h]

theorem pollCalls_cyclesCalls (fd : Int) (li : Ptr) (pending : List libinput_event)
    (polls : List PollOutcome) : pollCalls (cyclesCalls fd li pending polls) = polls.length := by
  induction polls generalizing pending with
  | nil => rfl
  | cons p rest ih =>
    simp [cyclesCalls, pollCalls, pollCalls_append, pollCalls_drainCalls, ih]

theorem drainCycles_cyclesCalls (fd : Int) (li : Ptr) (pending : List libinput_event)
    (polls : List PollOutcome) :
    drainCycles (cyclesCalls fd li pending polls) = polls.length := by
  induction polls generalizing pending with
  | nil => rfl
  | cons p rest ih =>
    simp [cyclesCalls, drainCycles, drainCycles_append, drainCycles_drainCalls, ih]
    omega

/-- The `while (poll(...) >= 0)` loop over successful waits followed by a
failing one: it returns at the failing wait. -/
theorem pollLoop_eq (fd : Int) (pre : List PollOutcome) (bad : PollOutcome)
    (post : List PollOutcome) (hpre : ∀ p ∈ pre, 0 ≤ p.ret) (hbad : bad.ret < 0) (s : State) :
    ∃ s', pollLoop fd (pre ++ bad :: post) s = Result.ok () s' ∧
      s'.trace = s.trace ++ (cyclesCalls fd s.libinputContext (s.queue ++ s.fdData) pre ++
        [Call.poll fd POLLIN (-1) bad.ret]) := by
  induction pre generalizing s with
  | nil =>
    refine ⟨{ s with fdData := s.fdData ++ bad.arrived,
                     trace := s.trace ++ [Call.poll fd POLLIN (-1) bad.ret] }, ?_, ?_⟩
    · simp only [List.nil_append, pollLoop]
      rw [if_neg (by omega)]
    · simp [cyclesCalls]
  | cons p rest ih =>
    have hp : p.ret ≥ 0 := hpre p (by simp)
    obtain ⟨s', h1, h2⟩ := ih (fun q hq => hpre q (by simp [hq]))
      { s with queue := [], fdData := [],
               trace := s.trace ++ [Call.poll fd POLLIN (-1) p.ret] ++
                 drainCalls s.libinputContext (s.queue ++ (s.fdData ++ p.arrived)) }
    refine ⟨s', ?_, ?_⟩
    · simp only [List.cons_append, pollLoop]
      rw [if_pos hp, drainLoop_eq]
      exact h1
    · rw [h2]
      simp [cyclesCalls]

theorem drainCalls_eq_flatMap (li : Ptr) (es : List libinput_event) :
    drainCalls li es = es.flatMap (iterationCalls li) ++
      [Call.libinput_dispatch li, Call.libinput_get_event li none] := by
  induction es with
  | nil => rfl
  | cons e es ih => simp [drainCalls, ih]

/-! ## Event dispatch and the drain cycle -/

/-- C1: `handleEvent` returns normally for every event; on an event of type
`LIBINPUT_EVENT_GESTURE_SWIPE_BEGIN` it makes exactly one `onGestureBegin` call,
with the gesture built from that event, and on an event of any other type
(swipe update/end and the pinch types among them) it makes no delegate call.
The only other call it makes reads the type of the event, and it leaves the
handles and the queue as they were. -/
theorem handleEvent_calls_delegate_iff_swipe_begin (event : libinput_event) (s : State) :
    ∃ s', handleEvent event s = Result.ok () s' ∧
      delegateCalls s'.trace = delegateCalls s.trace ++
        (if event.type = LIBINPUT_EVENT_GESTURE_SWIPE_BEGIN
         then [LibinputGesture.mk event] else []) ∧
      s'.trace = s.trace ++ (Call.libinput_event_get_type event event.type ::
        (if event.type = LIBINPUT_EVENT_GESTURE_SWIPE_BEGIN
         then [Call.onGestureBegin (LibinputGesture.mk event)] else [])) ∧
      s'.queue = s.queue ∧ s'.fdData = s.fdData ∧
      s'.udevContext = s.udevContext ∧ s'.libinputContext = s.libinputContext ∧
      (event.type ∈ [LIBINPUT_EVENT_GESTURE_SWIPE_UPDATE, LIBINPUT_EVENT_GESTURE_SWIPE_END,
          LIBINPUT_EVENT_GESTURE_PINCH_BEGIN, LIBINPUT_EVENT_GESTURE_PINCH_UPDATE,
          LIBINPUT_EVENT_GESTURE_PINCH_END] →
        delegateCalls s'.trace = delegateCalls s.trace) := by
  refine ⟨_, handleEvent_eq event s, ?_, rfl, rfl, rfl, rfl, rfl, ?_⟩
  · by_cases h : event.type = LIBINPUT_EVENT_GESTURE_SWIPE_BEGIN <;>
      simp [delegateCalls_append, delegateCalls, h]
  · intro h
    have hne : event.type ≠ LIBINPUT_EVENT_GESTURE_SWIPE_BEGIN := by
      intro h0
      rw [h0] at h
      simp at h
    simp [delegateCalls_append, delegateCalls, hne]

/-- A swipe-update event makes `handleEvent` return without a delegate call. -/
theorem handleEvent_calls_delegate_iff_swipe_begin_witness :
    ∃ s', handleEvent ⟨801, 4⟩ ⟨1, 2, [], [], []⟩ = Result.ok () s' ∧
      delegateCalls s'.trace = [] := by
  obtain ⟨s', h1, _, _, _, _, _, _, h8⟩ :=
    handleEvent_calls_delegate_iff_swipe_begin ⟨801, 4⟩ ⟨1, 2, [], [], []⟩
  exact ⟨s', h1, by simpa [delegateCalls] using h8 (by decide)⟩

/-- C2: one drain cycle returns, and the gestures it passes to `onGestureBegin`
are, in order and one for one, those built from the pending events (queued, or
readable on the descriptor) whose type is swipe-begin; for a queue holding a
swipe-begin event followed by a swipe-update event that is one call, for the
first of the two. -/
theorem drainLoop_forwards_swipe_begins_in_order (s : State) :
    (∃ s', drainLoop s = Result.ok () s' ∧
      delegateCalls s'.trace = delegateCalls s.trace ++
        ((s.queue ++ s.fdData).filter
          (fun e => decide (e.type = LIBINPUT_EVENT_GESTURE_SWIPE_BEGIN))).map
          LibinputGesture.mk) ∧
    (∀ i j : Nat,
      s.queue = [⟨LIBINPUT_EVENT_GESTURE_SWIPE_BEGIN, i⟩, ⟨LIBINPUT_EVENT_GESTURE_SWIPE_UPDATE, j⟩] →
      s.fdData = [] → s.trace = [] →
      ∃ s', drainLoop s = Result.ok () s' ∧
        delegateCalls s'.trace = [LibinputGesture.mk ⟨LIBINPUT_EVENT_GESTURE_SWIPE_BEGIN, i⟩]) := by
  refine ⟨⟨_, drainLoop_eq s, ?_⟩, ?_⟩
  · simp only [delegateCalls_append, delegateCalls_drainCalls]
  · intro i j hq hf ht
    refine ⟨_, drainLoop_eq s, ?_⟩
    simp [delegateCalls_append, delegateCalls_drainCalls, hq, hf, ht, delegateCalls]

/-- The queue of the end-to-end scenario: the one swipe-begin event is forwarded. -/
theorem drainLoop_forwards_swipe_begins_in_order_witness :
    ∃ s', drainLoop ⟨1, 2, [], [⟨800, 0⟩, ⟨801, 1⟩], []⟩ = Result.ok () s' ∧
      delegateCalls s'.trace = [LibinputGesture.mk ⟨800, 0⟩] :=
  (drainLoop_forwards_swipe_begins_in_order ⟨1, 2, [], [⟨800, 0⟩, ⟨801, 1⟩], []⟩).2 0 1
    rfl rfl rfl

/-- C3: one drain cycle returns for every state of the queue and the
descriptor; the events it retrieves are exactly the pending ones, each once and
in order; it leaves the queue empty and nothing to read, so that the next
`libinput_get_event`, with or without a `libinput_dispatch` before it, returns
the null pointer. -/
theorem drainLoop_empties_queue (s : State) :
    ∃ s', drainLoop s = Result.ok () s' ∧
      retrieved s'.trace = retrieved s.trace ++ (s.queue ++ s.fdData) ∧
      s'.queue = [] ∧ s'.fdData = [] ∧
      (libinput_get_event s').1 = none ∧
      (libinput_get_event (libinput_dispatch s')).1 = none := by
  refine ⟨_, drainLoop_eq s, ?_, rfl, rfl, ?_, ?_⟩
  · simp only [retrieved_append, retrieved_drainCalls]
  · simp [libinput_get_event]
  · simp [libinput_get_event, libinput_dispatch]

/-- C10 fails as stated: in a drain cycle over a queue holding one swipe-update
event, the event is retrieved and its type is read, and the cycle ends without
a `libinput_event_destroy` call for it. -/
theorem drainLoop_ignored_event_not_released :
    drainLoop ⟨1, 2, [], [⟨801, 7⟩], []⟩ = Result.ok ()
      ⟨1, 2, [], [],
        [Call.libinput_dispatch 2, Call.libinput_get_event 2 (some ⟨801, 7⟩),
         Call.libinput_event_get_type ⟨801, 7⟩ 801,
         Call.libinput_dispatch 2, Call.libinput_get_event 2 none]⟩ ∧
    retrieved [Call.libinput_dispatch 2, Call.libinput_get_event 2 (some ⟨801, 7⟩),
         Call.libinput_event_get_type ⟨801, 7⟩ 801,
         Call.libinput_dispatch 2, Call.libinput_get_event 2 none] = [⟨801, 7⟩] ∧
    released [Call.libinput_dispatch 2, Call.libinput_get_event 2 (some ⟨801, 7⟩),
         Call.libinput_event_get_type ⟨801, 7⟩ 801,
         Call.libinput_dispatch 2, Call.libinput_get_event 2 none] = [] := by
  refine ⟨?_, by decide, by decide⟩
  rw [drainLoop_eq]
  decide

/-- C10, amended: in a drain cycle every retrieved event is inspected and, when
it is a swipe-begin, handed to the delegate as a gesture, in the iteration that
retrieved it and before the next `libinput_dispatch` and `libinput_get_event`;
the calls of the cycle are those of one iteration per pending event followed by
the retrieval that returns the null pointer, and no `libinput_event_destroy`
call is among them. -/
theorem drainLoop_handles_each_event_in_its_iteration (s : State) :
    ∃ s', drainLoop s = Result.ok () s' ∧
      s'.trace = s.trace ++ ((s.queue ++ s.fdData).flatMap (iterationCalls s.libinputContext) ++
        [Call.libinput_dispatch s.libinputContext,
         Call.libinput_get_event s.libinputContext none]) ∧
      released s'.trace = released s.trace ∧
      ∀ e, released (iterationCalls s.libinputContext e) = [] ∧
        retrieved (iterationCalls s.libinputContext e) = [e] := by
  refine ⟨_, drainLoop_eq s, ?_, ?_, ?_⟩
  · simp only [drainCalls_eq_flatMap]
  · simp only [released_append, released_drainCalls, List.append_nil]
  · intro e
    by_cases h : e.type = LIBINPUT_EVENT_GESTURE_SWIPE_BEGIN <;>
      simp [iterationCalls, released, retrieved, h]

/-! ## The main loop -/

/-- C4: with a descriptor other than -1, and waits of which the first that
fails comes after the successful waits `pre`, `run` returns without throwing;
its calls are `libinput_get_fd`, then each successful wait followed by its one
drain cycle, then the failing wait, after which it makes no call: `pre.length + 1`
waits and `pre.length` drain cycles; when the first wait fails there is no drain
cycle and no delegate call. -/
theorem run_stops_at_first_failed_wait (fd : Int) (pre : List PollOutcome) (bad : PollOutcome)
    (post : List PollOutcome) (s : State)
    (hfd : fd ≠ -1) (hpre : ∀ p ∈ pre, 0 ≤ p.ret) (hbad : bad.ret < 0) :
    ∃ s', run fd (pre ++ bad :: post) s = Result.ok () s' ∧
      s'.trace = s.trace ++ (Call.libinput_get_fd s.libinputContext fd ::
        (cyclesCalls fd s.libinputContext (s.queue ++ s.fdData) pre ++
          [Call.poll fd POLLIN (-1) bad.ret])) ∧
      pollCalls s'.trace = pollCalls s.trace + pre.length + 1 ∧
      drainCycles s'.trace = drainCycles s.trace + pre.length ∧
      (pre = [] →
        s'.trace = s.trace ++ [Call.libinput_get_fd s.libinputContext fd,
          Call.poll fd POLLIN (-1) bad.ret] ∧
        drainCycles s'.trace = drainCycles s.trace ∧
        delegateCalls s'.trace = delegateCalls s.trace) := by
  obtain ⟨s', h1, h2⟩ := pollLoop_eq fd pre bad post hpre hbad
    (s.call (Call.libinput_get_fd s.libinputContext fd))
  have ht : s'.trace = s.trace ++ (Call.libinput_get_fd s.libinputContext fd ::
      (cyclesCalls fd s.libinputContext (s.queue ++ s.fdData) pre ++
        [Call.poll fd POLLIN (-1) bad.ret])) := by
    rw [h2]
    simp [State.call]
  refine ⟨s', ?_, ht, ?_, ?_, ?_⟩
  · unfold run
    simp only
    rw [if_neg hfd]
    exact h1
  · rw [ht]
    simp [pollCalls_append, pollCalls, pollCalls_cyclesCalls]
    omega
  · rw [ht]
    simp [drainCycles_append, drainCycles, drainCycles_cyclesCalls]
  · intro hnil
    subst hnil
    rw [ht]
    simp [cyclesCalls, drainCycles_append, drainCycles, delegateCalls_append, delegateCalls]

/-- One successful wait that brings a swipe-begin event, then a failing wait:
`run` returns after two waits and one drain cycle. -/
theorem run_stops_at_first_failed_wait_witness :
    (3 : Int) ≠ -1 ∧ (∀ p ∈ [(⟨1, [⟨800, 0⟩]⟩ : PollOutcome)], 0 ≤ p.ret) ∧
    (⟨-1, []⟩ : PollOutcome).ret < 0 ∧
    ∃ s', run 3 ([⟨1, [⟨800, 0⟩]⟩] ++ ⟨-1, []⟩ :: []) ⟨1, 2, [], [], []⟩ = Result.ok () s' ∧
      pollCalls s'.trace = 2 ∧ drainCycles s'.trace = 1 := by
  have h1 : (3 : Int) ≠ -1 := by decide
  have h2 : ∀ p ∈ [(⟨1, [⟨800, 0⟩]⟩ : PollOutcome)], 0 ≤ p.ret := by simp
  have h3 : (⟨-1, []⟩ : PollOutcome).ret < 0 := by decide
  obtain ⟨s', h4, _, h5, h6, _⟩ :=
    run_stops_at_first_failed_wait 3 [⟨1, [⟨800, 0⟩]⟩] ⟨-1, []⟩ [] ⟨1, 2, [], [], []⟩ h1 h2 h3
  exact ⟨h1, h2, h3, s', h4, by simpa [pollCalls] using h5, by simpa [drainCycles] using h6⟩

/-! ## Construction and destruction -/

theorem destructor_eq (s : State) :
    destructor s = { s with trace := s.trace ++ releaseCalls s } := by
  obtain ⟨u, l, f, q, t⟩ := s
  unfold destructor releaseCalls
  by_cases h1 : l = nullptr <;> by_cases h2 : u = nullptr <;>
    simp [h1, h2, State.call]

theorem releaseCalls_eq_nil (s : State) :
    releaseCalls s = [] ↔ s.libinputContext = nullptr ∧ s.udevContext = nullptr := by
  unfold releaseCalls
  by_cases h1 : s.libinputContext = nullptr <;> by_cases h2 : s.udevContext = nullptr <;>
    simp [h1, h2]

theorem destructor_twice_eq_iff (s : State) :
    destructor (destructor s) = destructor s ↔
      s.libinputContext = nullptr ∧ s.udevContext = nullptr := by
  rw [← releaseCalls_eq_nil, destructor_eq, destructor_eq]
  obtain ⟨u, l, f, q, t⟩ := s
  simp [releaseCalls]

/-- C5: the constructor calls `udev_new`, then `libinput_udev_create_context`,
then `libinput_udev_assign_seat` with "seat0", and throws at the first of them
that fails, with the message of that stage and without calling a later one: a
null device-manager handle gives the udev error after the one call; a null
input-library context gives the libinput error after two calls; a non-zero
seat result gives the seat error; and it returns exactly when the two handles
are non-null and the seat result is zero. -/
theorem constructor_fails_at_first_failing_stage (a b : Ptr) (c : Int) (s : State) :
    (a = nullptr →
      LibinputGestureGatherer a b c s = Result.throw "Error initialising Touchégg: udev"
        { s with udevContext := a, trace := s.trace ++ [Call.udev_new a] }) ∧
    (a ≠ nullptr → b = nullptr →
      LibinputGestureGatherer a b c s = Result.throw "Error initialising Touchégg: libinput"
        { s with udevContext := a, libinputContext := b,
                 trace := s.trace ++ [Call.udev_new a,
                   Call.libinput_udev_create_context a b] }) ∧
    (a ≠ nullptr → b ≠ nullptr → c ≠ 0 →
      LibinputGestureGatherer a b c s =
        Result.throw "Error initialising Touchégg: libinput seat"
          { s with udevContext := a, libinputContext := b,
                   trace := s.trace ++ [Call.udev_new a,
                     Call.libinput_udev_create_context a b,
                     Call.libinput_udev_assign_seat b "seat0" c] }) ∧
    (a ≠ nullptr → b ≠ nullptr → c = 0 →
      LibinputGestureGatherer a b c s = Result.ok ()
          { s with udevContext := a, libinputContext := b,
                   trace := s.trace ++ [Call.udev_new a,
                     Call.libinput_udev_create_context a b,
                     Call.libinput_udev_assign_seat b "seat0" c] }) ∧
    ((∃ s', LibinputGestureGatherer a b c s = Result.ok () s') ↔
      a ≠ nullptr ∧ b ≠ nullptr ∧ c = 0) := by
  unfold LibinputGestureGatherer
  refine ⟨?_, ?_, ?_, ?_, ?_⟩
  · intro ha
    simp [ha]
  · intro ha hb
    simp [ha, hb]
  · intro ha hb hc
    simp [ha, hb, hc, State.call]
  · intro ha hb hc
    simp [ha, hb, hc, State.call]
  · by_cases ha : a = nullptr
    · simp [ha]
    · by_cases hb : b = nullptr
      · simp [ha, hb]
      · by_cases hc : c = 0 <;> simp [ha, hb, hc]

/-- A null device-manager handle: the constructor throws the udev error after
the one call, although the two later stages would have succeeded. -/
theorem constructor_fails_at_first_failing_stage_witness :
    LibinputGestureGatherer 0 5 0 ⟨0, 0, [], [], []⟩ =
      Result.throw "Error initialising Touchégg: udev" ⟨0, 0, [], [], [Call.udev_new 0]⟩ :=
  (constructor_fails_at_first_failing_stage 0 5 0 ⟨0, 0, [], [], []⟩).1 rfl

/-- C6 fails on the code: when the seat bind reports -1 after both handles were
created, the constructor throws the seat error, both handles are still held,
and no `libinput_unref` or `udev_unref` call has been made. -/
theorem constructor_seat_failure_releases_nothing :
    LibinputGestureGatherer 1 2 (-1) ⟨0, 0, [], [], []⟩ =
      Result.throw "Error initialising Touchégg: libinput seat"
        ⟨1, 2, [], [],
          [Call.udev_new 1, Call.libinput_udev_create_context 1 2,
           Call.libinput_udev_assign_seat 2 "seat0" (-1)]⟩ ∧
    unreffed [Call.udev_new 1, Call.libinput_udev_create_context 1 2,
           Call.libinput_udev_assign_seat 2 "seat0" (-1)] = [] := by
  constructor
  · simp [LibinputGestureGatherer, State.call]
  · decide

/-- C8: the destructor calls `libinput_unref` on the input-library context if
and only if it is non-null, then `udev_unref` on the device-manager handle if
and only if it is non-null, in that order, and does nothing else: it makes no
other call and leaves the rest of the state as it was. -/
theorem destructor_releases_held_handles_in_reverse_order (s : State) :
    destructor s =
      { s with trace := s.trace ++
          ((if s.libinputContext ≠ nullptr then [Call.libinput_unref s.libinputContext] else []) ++
           (if s.udevContext ≠ nullptr then [Call.udev_unref s.udevContext] else [])) } ∧
    unreffed (destructor s).trace = unreffed s.trace ++
      ((if s.libinputContext ≠ nullptr then [s.libinputContext] else []) ++
       (if s.udevContext ≠ nullptr then [s.udevContext] else [])) := by
  have h := destructor_eq s
  unfold releaseCalls at h
  refine ⟨h, ?_⟩
  rw [h]
  have happ : ∀ x y : List Call, unreffed (x ++ y) = unreffed x ++ unreffed y := by
    intro x y
    induction x with
    | nil => rfl
    | cons c x ih => cases c <;> simp [unreffed, ih]
  by_cases h1 : s.libinputContext = nullptr <;> by_cases h2 : s.udevContext = nullptr <;>
    simp [h1, h2, happ, unreffed]

/-- C9 fails as stated: on a fully constructed gatherer a second run of the
destructor body calls `libinput_unref` and `udev_unref` again, so that two runs
differ from one and each handle is released twice. -/
theorem destructor_twice_releases_twice :
    destructor (destructor ⟨1, 2, [], [], []⟩) ≠ destructor ⟨1, 2, [], [], []⟩ ∧
    (destructor ⟨1, 2, [], [], []⟩).trace = [Call.libinput_unref 2, Call.udev_unref 1] ∧
    (destructor (destructor ⟨1, 2, [], [], []⟩)).trace =
      [Call.libinput_unref 2, Call.udev_unref 1, Call.libinput_unref 2, Call.udev_unref 1] := by
  decide

/-- C9, amended: one run of the destructor body releases each non-null handle
once, on any state; the handles are not cleared, so a second run repeats the
release calls of the first, and two runs have the effect of one exactly when
both handles are null.  After a failed construction that started from a null
input-library handle, that is the case exactly when it failed at the
device-manager stage. -/
theorem destructor_twice_repeats_releases (s : State) :
    (destructor s).trace = s.trace ++ releaseCalls s ∧
    (destructor (destructor s)).trace = s.trace ++ releaseCalls s ++ releaseCalls s ∧
    (destructor (destructor s) = destructor s ↔
      s.libinputContext = nullptr ∧ s.udevContext = nullptr) ∧
    (∀ (a b : Ptr) (c : Int) (s0 : State) (msg : String),
      s0.libinputContext = nullptr →
      LibinputGestureGatherer a b c s0 = Result.throw msg s →
      (destructor (destructor s) = destructor s ↔ a = nullptr)) := by
  refine ⟨?_, ?_, destructor_twice_eq_iff s, ?_⟩
  · rw [destructor_eq]
  · rw [destructor_eq, destructor_eq]
    simp [releaseCalls]
  · intro a b c s0 msg h0 hc
    rw [destructor_twice_eq_iff]
    unfold LibinputGestureGatherer at hc
    by_cases ha : a = nullptr
    · simp [ha] at hc
      obtain ⟨_, hs⟩ := hc
      subst hs
      simp [ha, h0]
    · by_cases hb : b = nullptr
      · simp [ha, hb] at hc
        obtain ⟨_, hs⟩ := hc
        subst hs
        simp [ha]
      · by_cases hcz : c = 0
        · simp [ha, hb, hcz] at hc
        · simp [ha, hb, hcz, State.call] at hc
          obtain ⟨_, hs⟩ := hc
          subst hs
          simp [ha]

/-- After a construction that failed at the device-manager stage the
destructor body releases nothing, once or twice. -/
theorem destructor_twice_repeats_releases_witness :
    destructor (destructor ⟨0, 0, [], [], [Call.udev_new 0]⟩) =
      destructor ⟨0, 0, [], [], [Call.udev_new 0]⟩ :=
  ((destructor_twice_repeats_releases ⟨0, 0, [], [], [Call.udev_new 0]⟩).2.2.2
    0 5 0 ⟨0, 0, [], [], []⟩ "Error initialising Touchégg: udev" rfl
    (by simp [LibinputGestureGatherer])).2 rfl

/-! ## Opening a device -/

/-- C7: `openRestricted` calls `open` once, whatever the path and flags;
when `open` returns a non-negative descriptor it returns that descriptor, and
when `open` returns a negative value it throws, returning no descriptor, an
error whose message holds the command `sudo usermod -a -G input $USER` and the
instruction to reboot; it returns a descriptor exactly in the first case. -/
theorem openRestricted_returns_descriptor_or_throws (sys_open : String → Int → Int)
    (path : String) (flags : Int) (s : State) :
    (0 ≤ sys_open path flags →
      openRestricted sys_open path flags s = Result.ok (sys_open path flags)
        { s with trace := s.trace ++ [Call.sys_open path flags (sys_open path flags)] }) ∧
    (sys_open path flags < 0 →
      openRestricted sys_open path flags s = Result.throw openRestrictedError
        { s with trace := s.trace ++ [Call.sys_open path flags (sys_open path flags)] }) ∧
    ((∃ fd s', openRestricted sys_open path flags s = Result.ok fd s') ↔
      0 ≤ sys_open path flags) ∧
    "sudo usermod -a -G input $USER".data <:+: openRestrictedError.data ∧
    "reboot".data <:+: openRestrictedError.data := by
  unfold openRestricted
  refine ⟨?_, ?_, ?_, ?_, ?_⟩
  · intro h
    simp [State.call, not_lt.mpr h]
  · intro h
    simp [State.call, h]
  · by_cases h : sys_open path flags < 0
    · simp [h]
    · simp [h, not_lt.mp h]
  · exact ⟨("Error initialising Touchégg: libinput open.\n" ++
      "Please execute the following command:\n" ++ "$ ").data,
      ("\n" ++ "And reboot to solve this issue").data, rfl⟩
  · exact ⟨("Error initialising Touchégg: libinput open.\n" ++
      "Please execute the following command:\n" ++
      "$ sudo usermod -a -G input $USER\n" ++ "And ").data,
      " to solve this issue".data, rfl⟩

/-- A refused open (-1) makes `openRestricted` throw after the one call. -/
theorem openRestricted_returns_descriptor_or_throws_witness :
    openRestricted (fun _ _ => -1) "/dev/input/event0" 2 ⟨1, 2, [], [], []⟩ =
      Result.throw openRestrictedError
        ⟨1, 2, [], [], [Call.sys_open "/dev/input/event0" 2 (-1)]⟩ :=
  (openRestricted_returns_descriptor_or_throws (fun _ _ => -1) "/dev/input/event0" 2
    ⟨1, 2, [], [], []⟩).2.1 (by decide)

end Touchegg
